import Mathlib

/-!
Verification of the URL monitoring system (src/main.py) against its
natural-language specification.

The development shallowly embeds the core of `URLMonitor`: the per-target
health check `check_url`, the alert e-mail construction and delivery
`send_alert`, and the per-cycle driver `run_checks`.  The network probe and
the SMTP wire are the only external effects; they are passed in as explicit
data (`ProbeOutcome`, a delivery function), so every embedded function is a
pure, executable Lean definition.

Numeric modelling: elapsed times are rationals (Python floats are modelled
as exact rationals); `round(x, 2)` is modelled by `round2` with
round-half-to-even tie behaviour.  Error messages are kept structured
(`ErrMsg`) with a rendering function `renderErr` giving the literal Python
f-string text.
-/

namespace URLMonitor

/-- One monitored target: an entry of `CONFIG["urls"]` (src/main.py lines
26-29).  `search_string` is `none` when the config stores Python `None`. -/
structure Target where
  url : String
  expected_status : Nat
  search_string : Option String
deriving Repr, DecidableEq

/-- Model of `CONFIG["monitoring"]` (src/main.py lines 39-43). -/
structure MonitoringConfig where
  timeout_seconds : Nat
  check_interval_minutes : Nat
  max_response_time_ms : ℚ
deriving Repr, DecidableEq

/-- Model of `CONFIG["smtp"]` (src/main.py lines 30-38).  The Python keys `"from"`,
`"to"` and `"subject_prefix"` are spelled `fromAddr`, `toAddrs` and
`subjectPrefix` here (the originals are Lean keywords or gate-restricted
names). -/
structure SmtpConfig where
  server : String
  port : Nat
  username : String
  password : String
  fromAddr : String
  toAddrs : List String
  subjectPrefix : String
deriving Repr, DecidableEq

/-- The whole `CONFIG` dictionary (src/main.py lines 25-44). -/
structure Config where
  urls : List Target
  smtp : SmtpConfig
  monitoring : MonitoringConfig
deriving Repr, DecidableEq

/-- The final HTTP response delivered by `self.session.get` (after
redirects): its status code and its fully-read body text. -/
structure HttpResponse where
  status_code : Nat
  text : String
deriving Repr, DecidableEq

/-- Outcome of the network probe at src/main.py lines 80-86: either a
response together with the raw elapsed wall-clock time in milliseconds
(`(time.time() - start_time) * 1000`, before any rounding), or a raised
transport-level exception carrying its message `str(e)`. -/
inductive ProbeOutcome where
  | response (resp : HttpResponse) (elapsedMs : ℚ)
  | failure (msg : String)
deriving Repr, DecidableEq

/-- Structured form of the strings assigned to `result["error"]`.  The
literal Python text is recovered by `renderErr`. -/
inductive ErrMsg where
  | unexpectedStatus (code : Nat)
  | searchNotFound
  | slowResponse (ms : ℚ)
  | transport (msg : String)
deriving Repr, DecidableEq

/-- The result dictionary built by `check_url` (src/main.py lines 69-77).
Every key is always present; a field is "absent" when it still holds the
initial Python `None`, modelled as `Option.none`. -/
structure CheckResult where
  url : String
  timestamp : String
  success : Bool
  status_code : Option Nat
  response_time_ms : Option ℚ
  error : Option ErrMsg
  content_verified : Option Bool
deriving Repr, DecidableEq

/-- Substring occurrence on character lists: some suffix of the haystack
starts with the needle. -/
def listContains (needle : List Char) : List Char → Bool
  | [] => needle.isEmpty
  | c :: rest => needle.isPrefixOf (c :: rest) || listContains needle rest

/-- Python's `needle in haystack` for strings: case-sensitive exact
substring test (src/main.py line 97). -/
def containsStr (haystack needle : String) : Bool :=
  listContains needle.toList haystack.toList

/-- Round a rational to the nearest integer with ties to even, modelling
Python's `round` tie behaviour. -/
def roundHalfEven (q : ℚ) : ℤ :=
  if q - ⌊q⌋ = 1 / 2 then (if ⌊q⌋ % 2 = 0 then ⌊q⌋ else ⌊q⌋ + 1) else round q

/-- Python `round(x, 2)` (src/main.py line 87): round to 2 decimal
places. -/
def round2 (q : ℚ) : ℚ := (roundHalfEven (q * 100) : ℚ) / 100

/-- The latency sub-check and the final success assignment
(src/main.py lines 103-109).  Both the comparison and the interpolated
value use the raw elapsed milliseconds `response_time`, not the rounded
`result["response_time_ms"]` field. -/
def latencyCheck (monitoring : MonitoringConfig) (elapsedMs : ℚ)
    (result : CheckResult) : CheckResult :=
  if elapsedMs > monitoring.max_response_time_ms then
    { result with error := some (.slowResponse elapsedMs) }
  else
    { result with success := true }

/-- Embedding of `URLMonitor.check_url` (src/main.py lines 67-113).  The probe outcome
and the check timestamp are inputs; everything else follows the source
line by line.  The guard `if url_config["search_string"]:` is Python
truthiness: both `None` and the empty string skip the content check. -/
def check_url (monitoring : MonitoringConfig) (url_config : Target)
    (timestamp : String) (probe : ProbeOutcome) : CheckResult :=
  let result : CheckResult :=
    { url := url_config.url, timestamp := timestamp, success := false,
      status_code := none, response_time_ms := none, error := none,
      content_verified := none }
  match probe with
  | .failure msg =>
      { result with error := some (.transport msg) }
  | .response resp elapsedMs =>
      let result := { result with
        response_time_ms := some (round2 elapsedMs),
        status_code := some resp.status_code }
      if resp.status_code ≠ url_config.expected_status then
        { result with error := some (.unexpectedStatus resp.status_code) }
      else
        match url_config.search_string with
        | none => latencyCheck monitoring elapsedMs result
        | some s =>
            if s = "" then latencyCheck monitoring elapsedMs result
            else
              let content_match := containsStr resp.text s
              let result := { result with content_verified := some content_match }
              if content_match = false then
                { result with error := some .searchNotFound }
              else
                latencyCheck monitoring elapsedMs result

/-- Decimal digits of a rational in `[0, 1)` by long division (`fuel`
bounds the output length; all values arising here terminate well within
it). -/
def decDigits : Nat → ℚ → String
  | 0, _ => ""
  | fuel + 1, q =>
      if q = 0 then ""
      else
        let d : ℤ := ⌊q * 10⌋
        toString d ++ decDigits fuel (q * 10 - (d : ℚ))

/-- Decimal rendering of a rational, modelling Python's float formatting
for terminating decimals (always at least one fractional digit, as in
`str(2000.0) = "2000.0"`). -/
def fmtQ (q : ℚ) : String :=
  let sgn := if q < 0 then "-" else ""
  let a := |q|
  let ds := decDigits 30 (a - (⌊a⌋ : ℚ))
  sgn ++ toString ⌊a⌋ ++ "." ++ (if ds = "" then "0" else ds)

/-- The literal Python text of each `result["error"]` assignment. -/
def renderErr : ErrMsg → String
  | .unexpectedStatus code => "Unexpected status: " ++ toString code
  | .searchNotFound => "Search string not found in response"
  | .slowResponse ms => "Slow response: " ++ fmtQ ms ++ "ms"
  | .transport msg => msg

/-- Python f-string rendering of `result["error"]` (`None` prints as
`"None"`). -/
def renderErrOpt : Option ErrMsg → String
  | none => "None"
  | some e => renderErr e

/-- Python f-string rendering of an optional integer field.  In
`send_alert`, `check_result.get('status_code', 'N/A')` returns the stored
value because `check_url` always populates the key; a stored `None`
renders as `"None"`. -/
def optNatStr : Option Nat → String
  | none => "None"
  | some n => toString n

/-- Python f-string rendering of the optional `response_time_ms` field
(same `dict.get` remark as `optNatStr`). -/
def optQStr : Option ℚ → String
  | none => "None"
  | some q => fmtQ q

/-- Python f-string rendering of the optional `content_verified` field
(same `dict.get` remark as `optNatStr`). -/
def optBoolStr : Option Bool → String
  | none => "None"
  | some true => "True"
  | some false => "False"

/-- The alert e-mail message assembled by `send_alert`
(src/main.py lines 120-145). -/
structure EmailMessage where
  fromAddr : String
  toHeader : String
  subject : String
  body : String
deriving Repr, DecidableEq

/-- The e-mail body f-string of `send_alert` (src/main.py lines 127-144),
with its literal indentation. -/
def alertBody (check_result : CheckResult) : String :=
  "\n            URL Monitoring Alert\n            -------------------\n            \n            URL: "
    ++ check_result.url
    ++ "\n            Time: " ++ check_result.timestamp
    ++ "\n            Error: " ++ renderErrOpt check_result.error
    ++ "\n            \n            Diagnostics:\n            - Status Code: "
    ++ optNatStr check_result.status_code
    ++ "\n            - Response Time: " ++ optQStr check_result.response_time_ms
    ++ " ms\n            - Content Verified: " ++ optBoolStr check_result.content_verified
    ++ "\n            \n            Recommended Actions:\n            1. Verify server connectivity\n            2. Check application logs\n            3. Validate recent deployments\n            "

/-- Message construction in `send_alert` (src/main.py lines 120-145):
headers plus the body template. -/
def buildAlertEmail (smtp : SmtpConfig) (check_result : CheckResult) : EmailMessage :=
  { fromAddr := smtp.fromAddr,
    toHeader := String.intercalate ", " smtp.toAddrs,
    subject := smtp.subjectPrefix ++ " Failure: " ++ check_result.url,
    body := alertBody check_result }

/-- Embedding of `URLMonitor.send_alert` (src/main.py lines 115-158).  The SMTP
connect/starttls/login/send interaction is the `deliver` argument; the
enclosing `try`/`except` turns any delivery failure into the return value
`false` (the exception never propagates). -/
def send_alert (smtp : SmtpConfig) (deliver : EmailMessage → Except String Unit)
    (check_result : CheckResult) : Bool :=
  match deliver (buildAlertEmail smtp check_result) with
  | .ok _ => true
  | .error _ => false

/-- Observable events of one check cycle: the per-target log lines of
`run_checks` (src/main.py lines 167-170) and each `send_alert` invocation
with its returned delivery outcome (line 171). -/
inductive Event where
  | logSuccess (url : String) (ms : Option ℚ)
  | logFailure (url : String) (err : Option ErrMsg)
  | alertAttempt (result : CheckResult) (delivered : Bool)
deriving Repr, DecidableEq

/-- Embedding of `URLMonitor.run_checks` (src/main.py lines 160-173): one pass over all
configured targets; a failing result is logged and alerted, a succeeding
one only logged.  `clock` supplies each check's timestamp, `probe` each
target's network outcome. -/
def run_checks (config : Config) (deliver : EmailMessage → Except String Unit)
    (clock : Target → String) (probe : Target → ProbeOutcome) : List Event :=
  config.urls.flatMap fun url_config =>
    let result := check_url config.monitoring url_config (clock url_config) (probe url_config)
    if result.success then
      [Event.logSuccess url_config.url result.response_time_ms]
    else
      [Event.logFailure url_config.url result.error,
       Event.alertAttempt result (send_alert config.smtp deliver result)]

/-- The results for which an alert dispatch was attempted, in order. -/
def alertedResults (events : List Event) : List CheckResult :=
  events.filterMap fun e =>
    match e with
    | .alertAttempt r _ => some r
    | _ => none

/-- The URLs for which a check was evaluated and logged, in order. -/
def checkedUrls (events : List Event) : List String :=
  events.filterMap fun e =>
    match e with
    | .logSuccess u _ => some u
    | .logFailure u _ => some u
    | _ => none

/-! Concrete instances used by witnesses and counterexamples. -/

/-- The monitoring parameters of `CONFIG` (timeout 10 s, interval 5 min,
latency cap 2000 ms). -/
def mon2000 : MonitoringConfig :=
  { timeout_seconds := 10, check_interval_minutes := 5, max_response_time_ms := 2000 }

/-- The SMTP parameters of `CONFIG`. -/
def smtp0 : SmtpConfig :=
  { server := "smtp.gmail.com", port := 587, username := "your_email@gmail.com",
    password := "your_app_specific_password", fromAddr := "monitoring@yourdomain.com",
    toAddrs := ["admin@yourdomain.com", "backup@yourdomain.com"],
    subjectPrefix := "[URL Monitor]" }

/-- A two-target configuration for cycle-level witnesses. -/
def cfg0 : Config :=
  { urls := [⟨"https://a.example", 200, none⟩, ⟨"https://b.example", 500, none⟩],
    smtp := smtp0, monitoring := mon2000 }

/-- A delivery function on which every SMTP interaction fails (e.g. the
relay rejects the login). -/
def deliverFail : EmailMessage → Except String Unit :=
  fun _ => .error "535 authentication failed"

/-- A constant check clock. -/
def clock0 : Target → String := fun _ => "2024-01-01T00:00:00"

/-- A probe on which the first configured target responds and the second
fails at the transport level. -/
def probe0 : Target → ProbeOutcome :=
  fun t =>
    if t.url = "https://a.example" then .response ⟨200, "ok"⟩ 50
    else .failure "Connection refused"

/-- The check result of a transport-level failure (connection refused). -/
def resRefused : CheckResult :=
  check_url mon2000 ⟨"https://a.example", 200, none⟩ "2024-01-01T00:00:00"
    (.failure "Connection refused")

/-- The check result of a response whose raw elapsed time `2000.004` ms
exceeds the 2000 ms cap while its rounded `response_time_ms` does not. -/
def resBorderline : CheckResult :=
  check_url mon2000 ⟨"https://a.example", 200, none⟩ "2024-01-01T00:00:00"
    (.response ⟨200, "ok"⟩ (500001 / 250))

/-! Helper lemmas shared by the claim theorems. -/

/-- The empty needle occurs in every character list. -/
lemma listContains_nil (l : List Char) : listContains [] l = true := by
  cases l <;> rfl

/-- Python's `"" in x` is always true: the empty string is a substring of
every string. -/
lemma containsStr_empty (x : String) : containsStr x "" = true := by
  unfold containsStr
  exact listContains_nil x.toList

/-- Whenever the content sub-check is skipped (`search_string` is `None`
or empty, i.e. falsy), `content_verified` keeps its initial `None`. -/
lemma content_verified_none_aux (monitoring : MonitoringConfig) (t : Target)
    (ts : String) (probe : ProbeOutcome)
    (h : ∀ s, t.search_string = some s → s = "") :
    (check_url monitoring t ts probe).content_verified = none := by
  cases probe with
  | failure msg => rfl
  | response resp e =>
      simp only [check_url, latencyCheck]
      split
      · rfl
      · cases hs : t.search_string with
        | none => simp only [hs]; split <;> rfl
        | some s =>
            have hse := h s hs
            subst hse
            simp only [hs]
            split
            · split <;> rfl
            · simp_all

/-! Claim theorems. -/

/-- C2: whenever the response's status code differs from the target's
`expected_status`, `check_url` records the error
`"Unexpected status: {status_code}"` and `success = false`, whatever the
body text and the elapsed time are (the status check runs first and the
function returns there). -/
theorem check_url_status_mismatch (monitoring : MonitoringConfig) (t : Target)
    (ts : String) (resp : HttpResponse) (elapsedMs : ℚ)
    (h : resp.status_code ≠ t.expected_status) :
    (check_url monitoring t ts (.response resp elapsedMs)).success = false ∧
    (check_url monitoring t ts (.response resp elapsedMs)).error
      = some (.unexpectedStatus resp.status_code) ∧
    renderErr (.unexpectedStatus resp.status_code)
      = "Unexpected status: " ++ toString resp.status_code := by
  refine ⟨?_, ?_, rfl⟩ <;> simp [check_url, if_pos h]

/-- Witness for C2: a 404 against an expected 200, with a body and a
latency that would pass their own sub-checks. -/
theorem check_url_status_mismatch_witness :
    (check_url mon2000 ⟨"https://a.example", 200, some "ok"⟩ "T"
        (.response ⟨404, "ok fast body"⟩ 50)).success = false ∧
    (check_url mon2000 ⟨"https://a.example", 200, some "ok"⟩ "T"
        (.response ⟨404, "ok fast body"⟩ 50)).error
      = some (.unexpectedStatus 404) ∧
    renderErr (.unexpectedStatus 404) = "Unexpected status: " ++ toString 404 :=
  check_url_status_mismatch mon2000 ⟨"https://a.example", 200, some "ok"⟩ "T"
    ⟨404, "ok fast body"⟩ 50 (by decide)

/-- C5: a transport-level probe failure leaves `status_code` and
`response_time_ms` absent, `success = false`, and stores the underlying
failure's literal message as the error (non-empty whenever the message
is). -/
theorem check_url_transport_failure (monitoring : MonitoringConfig) (t : Target)
    (ts msg : String) (h : msg ≠ "") :
    (check_url monitoring t ts (.failure msg)).status_code = none ∧
    (check_url monitoring t ts (.failure msg)).response_time_ms = none ∧
    (check_url monitoring t ts (.failure msg)).success = false ∧
    (check_url monitoring t ts (.failure msg)).error = some (.transport msg) ∧
    Option.map renderErr (check_url monitoring t ts (.failure msg)).error = some msg ∧
    msg ≠ "" :=
  ⟨rfl, rfl, rfl, rfl, rfl, h⟩

/-- Witness for C5: a refused connection. -/
theorem check_url_transport_failure_witness :
    (check_url mon2000 ⟨"https://a.example", 200, none⟩ "T"
        (.failure "Connection refused")).status_code = none ∧
    (check_url mon2000 ⟨"https://a.example", 200, none⟩ "T"
        (.failure "Connection refused")).response_time_ms = none ∧
    (check_url mon2000 ⟨"https://a.example", 200, none⟩ "T"
        (.failure "Connection refused")).success = false ∧
    (check_url mon2000 ⟨"https://a.example", 200, none⟩ "T"
        (.failure "Connection refused")).error
      = some (.transport "Connection refused") ∧
    Option.map renderErr (check_url mon2000 ⟨"https://a.example", 200, none⟩ "T"
        (.failure "Connection refused")).error = some "Connection refused" ∧
    "Connection refused" ≠ "" :=
  check_url_transport_failure mon2000 ⟨"https://a.example", 200, none⟩ "T"
    "Connection refused" (by decide)

/-- C9: a target whose `search_string` is `None` never populates
`content_verified`: it stays `none` for every probe outcome. -/
theorem check_url_absent_search_no_content (monitoring : MonitoringConfig)
    (t : Target) (ts : String) (probe : ProbeOutcome)
    (h : t.search_string = none) :
    (check_url monitoring t ts probe).content_verified = none :=
  content_verified_none_aux monitoring t ts probe
    (fun s hs => by rw [h] at hs; cases hs)

/-- Witness for C9: a fully passing probe on a target without a search
string still leaves `content_verified` absent. -/
theorem check_url_absent_search_no_content_witness :
    (check_url mon2000 ⟨"https://a.example", 200, none⟩ "T"
        (.response ⟨200, "any body"⟩ 50)).content_verified = none :=
  check_url_absent_search_no_content mon2000 ⟨"https://a.example", 200, none⟩ "T"
    (.response ⟨200, "any body"⟩ 50) rfl

/-- C10: an empty `search_string` is falsy in Python, so `check_url`
behaves exactly as with no search string at all: the whole result
coincides with the one for the `none`-search target and
`content_verified` stays absent. -/
theorem check_url_empty_search_like_none (monitoring : MonitoringConfig)
    (t : Target) (ts : String) (probe : ProbeOutcome)
    (h : t.search_string = some "") :
    check_url monitoring t ts probe
      = check_url monitoring { t with search_string := none } ts probe ∧
    (check_url monitoring t ts probe).content_verified = none := by
  constructor
  · cases probe with
    | failure msg => rfl
    | response resp e => simp [check_url, h]
  · exact content_verified_none_aux monitoring t ts probe
      (fun s hs => by rw [h] at hs; exact (Option.some.inj hs).symm)

/-- Witness for C10: an empty search string on an otherwise passing probe;
the empty string occurs in every body, yet the content check is skipped. -/
theorem check_url_empty_search_like_none_witness :
    check_url mon2000 ⟨"https://a.example", 200, some ""⟩ "T"
        (.response ⟨200, "any body"⟩ 50)
      = check_url mon2000 ⟨"https://a.example", 200, none⟩ "T"
          (.response ⟨200, "any body"⟩ 50) ∧
    (check_url mon2000 ⟨"https://a.example", 200, some ""⟩ "T"
        (.response ⟨200, "any body"⟩ 50)).content_verified = none :=
  check_url_empty_search_like_none mon2000 ⟨"https://a.example", 200, some ""⟩ "T"
    (.response ⟨200, "any body"⟩ 50) rfl

set_option maxRecDepth 10000 in
/-- C4 (code evaluation at the failing input): on a transport failure all
three diagnostic fields are absent, yet the alert body renders each of
them as `"None"` and the string `"N/A"` appears nowhere in it — the
`dict.get(..., 'N/A')` defaults never apply because `check_url` always
populates the keys. -/
theorem send_alert_body_renders_none :
    resRefused.status_code = none ∧
    resRefused.response_time_ms = none ∧
    resRefused.content_verified = none ∧
    resRefused.success = false ∧
    containsStr (alertBody resRefused) "- Status Code: None" = true ∧
    containsStr (alertBody resRefused) "- Response Time: None ms" = true ∧
    containsStr (alertBody resRefused) "- Content Verified: None" = true ∧
    containsStr (alertBody resRefused) "N/A" = false := by decide

/-- C1 (counterexample to the claim as stated): a target whose
`search_string` is set — to the empty string — can yield `success = true`
with `content_verified` still absent, because Python's truthiness test
skips the content check for `""`. -/
theorem check_url_success_invariant_counterexample :
    (Target.mk "https://a.example" 200 (some "")).search_string.isSome = true ∧
    (check_url mon2000 (Target.mk "https://a.example" 200 (some "")) "T"
        (.response ⟨200, ""⟩ 1)).success = true ∧
    ¬ (check_url mon2000 (Target.mk "https://a.example" 200 (some "")) "T"
        (.response ⟨200, ""⟩ 1)).content_verified = some true := by
  decide

/-- C1 (amended): whenever `check_url` reports `success = true`, its
`error` is absent, and whenever the target's `search_string` is set to a
non-empty string, `content_verified = some true`.  (At most one error is
recorded structurally: `error` is a single optional field assigned at most
once, by the first failing sub-check.) -/
theorem check_url_success_invariant (monitoring : MonitoringConfig) (t : Target)
    (ts : String) (probe : ProbeOutcome)
    (h : (check_url monitoring t ts probe).success = true) :
    (check_url monitoring t ts probe).error = none ∧
    ∀ s, t.search_string = some s → s ≠ "" →
      (check_url monitoring t ts probe).content_verified = some true := by
  cases probe with
  | failure msg => simp [check_url] at h
  | response resp e =>
      by_cases hstatus : resp.status_code = t.expected_status
      · by_cases hlt : e > monitoring.max_response_time_ms
        · cases hs : t.search_string with
          | none => simp [check_url, latencyCheck, hstatus, hs, hlt] at h
          | some s0 =>
              by_cases h0 : s0 = ""
              · subst h0
                simp [check_url, latencyCheck, hstatus, hs, hlt] at h
              · by_cases hm : containsStr resp.text s0 = true
                · simp [check_url, latencyCheck, hstatus, hs, h0, hm, hlt] at h
                · simp [check_url, latencyCheck, hstatus, hs, h0, hm, hlt] at h
        · cases hs : t.search_string with
          | none =>
              refine ⟨by simp [check_url, latencyCheck, hstatus, hs, hlt], ?_⟩
              intro s hs2
              exact Option.noConfusion hs2
          | some s0 =>
              by_cases h0 : s0 = ""
              · subst h0
                refine ⟨by simp [check_url, latencyCheck, hstatus, hs, hlt], ?_⟩
                intro s hs2 hne
                exact absurd (Option.some.inj hs2).symm hne
              · by_cases hm : containsStr resp.text s0 = true
                · refine ⟨by simp [check_url, latencyCheck, hstatus, hs, h0, hm, hlt], ?_⟩
                  intro s hs2 hne
                  have hss : s0 = s := Option.some.inj hs2
                  subst hss
                  simp [check_url, latencyCheck, hstatus, hs, h0, hm, hlt]
                · simp [check_url, latencyCheck, hstatus, hs, h0, hm, hlt] at h
      · simp [check_url, latencyCheck, hstatus] at h

/-- Witness for C1 (amended): a passing probe on a target with a non-empty
search string present in the body. -/
theorem check_url_success_invariant_witness :
    (check_url mon2000 (Target.mk "https://e.example" 200 (some "hi")) "T"
        (.response ⟨200, "say hi"⟩ 50)).error = none ∧
    (check_url mon2000 (Target.mk "https://e.example" 200 (some "hi")) "T"
        (.response ⟨200, "say hi"⟩ 50)).content_verified = some true := by
  have h := check_url_success_invariant mon2000
    (Target.mk "https://e.example" 200 (some "hi")) "T"
    (.response ⟨200, "say hi"⟩ 50) (by decide)
  exact ⟨h.1, h.2 "hi" rfl (by decide)⟩

/-- C3 (counterexample to the claim as stated): with raw elapsed time
`2000.004` ms and cap `2000` ms, the recorded (rounded) field is
`2000.0 ≤ cap`, yet the check fails, and the error carries the raw value
`2000.004`, which differs from the rounded recorded field. -/
theorem check_url_latency_counterexample :
    resBorderline.response_time_ms = some 2000 ∧
    ¬ mon2000.max_response_time_ms < (2000 : ℚ) ∧
    resBorderline.success = false ∧
    resBorderline.error = some (.slowResponse (500001 / 250)) ∧
    (500001 / 250 : ℚ) ≠ round2 (500001 / 250) := by
  have hgt : mon2000.max_response_time_ms < (500001 / 250 : ℚ) := by
    norm_num [mon2000]
  have hfrac : (500001 / 250 : ℚ) * 100 - ((⌊(500001 / 250 : ℚ) * 100⌋ : ℤ) : ℚ) ≠ 1 / 2 := by
    have hfl : ⌊(500001 / 250 : ℚ) * 100⌋ = 200000 := by
      rw [Int.floor_eq_iff]
      norm_num
    rw [hfl]
    norm_num
  have hround : round ((500001 / 250 : ℚ) * 100) = 200000 := by
    rw [round_eq, Int.floor_eq_iff]
    norm_num
  have hr2 : round2 (500001 / 250) = 2000 := by
    unfold round2 roundHalfEven
    rw [if_neg hfrac, hround]
    norm_num
  have hres : resBorderline =
      { url := "https://a.example", timestamp := "2024-01-01T00:00:00",
        success := false, status_code := some 200,
        response_time_ms := some (round2 (500001 / 250)),
        error := some (.slowResponse (500001 / 250)), content_verified := none } := by
    unfold resBorderline
    simp only [check_url, latencyCheck]
    rw [if_neg (by decide), if_pos hgt]
  refine ⟨?_, by norm_num [mon2000], ?_, ?_, ?_⟩
  · rw [hres, hr2]
  · rw [hres]
  · rw [hres]
  · rw [hr2]
    norm_num

/-- C3 (amended): once the status and content sub-checks pass, the latency
check compares the RAW elapsed milliseconds (before rounding) against
`max_response_time_ms`: the check fails exactly when the raw value exceeds
the cap, and the error then interpolates that raw value, while the
recorded `response_time_ms` field holds the value rounded to 2 decimal
places. -/
theorem check_url_latency_uses_raw (monitoring : MonitoringConfig) (t : Target)
    (ts : String) (resp : HttpResponse) (e : ℚ)
    (hstatus : resp.status_code = t.expected_status)
    (hcontent : ∀ s, t.search_string = some s → s ≠ "" →
      containsStr resp.text s = true) :
    ((check_url monitoring t ts (.response resp e)).success = false ↔
      monitoring.max_response_time_ms < e) ∧
    (monitoring.max_response_time_ms < e →
      (check_url monitoring t ts (.response resp e)).error
        = some (.slowResponse e)) ∧
    (check_url monitoring t ts (.response resp e)).response_time_ms
      = some (round2 e) ∧
    renderErr (.slowResponse e) = "Slow response: " ++ fmtQ e ++ "ms" := by
  obtain ⟨cv, hkeep⟩ :
      ∃ cv, check_url monitoring t ts (.response resp e)
        = latencyCheck monitoring e
            { url := t.url, timestamp := ts, success := false,
              status_code := some resp.status_code,
              response_time_ms := some (round2 e), error := none,
              content_verified := cv } := by
    simp only [check_url]
    rw [if_neg (fun hne => hne hstatus)]
    cases hs : t.search_string with
    | none => exact ⟨none, rfl⟩
    | some s0 =>
        by_cases h0 : s0 = ""
        · subst h0
          exact ⟨none, rfl⟩
        · have hmt := hcontent s0 hs h0
          dsimp only
          rw [if_neg h0, hmt]
          exact ⟨some true, rfl⟩
  rw [hkeep]
  by_cases hlt : monitoring.max_response_time_ms < e
  · refine ⟨?_, ?_, ?_, rfl⟩ <;> simp [latencyCheck, hlt]
  · refine ⟨?_, ?_, ?_, rfl⟩ <;> simp [latencyCheck, hlt]

/-- Witness for C3 (amended): raw elapsed `3000` ms against the `2000` ms
cap on a target whose search string occurs in the body. -/
theorem check_url_latency_uses_raw_witness :
    (check_url mon2000 (Target.mk "https://a.example" 200 (some "x")) "T"
        (.response ⟨200, "x body"⟩ 3000)).success = false ∧
    (check_url mon2000 (Target.mk "https://a.example" 200 (some "x")) "T"
        (.response ⟨200, "x body"⟩ 3000)).error = some (.slowResponse 3000) ∧
    (check_url mon2000 (Target.mk "https://a.example" 200 (some "x")) "T"
        (.response ⟨200, "x body"⟩ 3000)).response_time_ms = some (round2 3000) := by
  have h := check_url_latency_uses_raw mon2000
    (Target.mk "https://a.example" 200 (some "x")) "T" ⟨200, "x body"⟩ 3000 rfl
    (fun s hs _ => by cases Option.some.inj hs; decide)
  exact ⟨h.1.mpr (by norm_num [mon2000]), h.2.1 (by norm_num [mon2000]), h.2.2.1⟩

/-- C6: a set, non-matching search string on a response that passes the
status check (and is under the latency cap) yields `success = false`,
`content_verified = some false` and the fixed error text. -/
theorem check_url_search_not_found (monitoring : MonitoringConfig) (t : Target)
    (ts : String) (resp : HttpResponse) (e : ℚ) (s : String)
    (hs : t.search_string = some s)
    (hfind : containsStr resp.text s = false)
    (hstatus : resp.status_code = t.expected_status)
    (_hlat : e ≤ monitoring.max_response_time_ms) :
    (check_url monitoring t ts (.response resp e)).success = false ∧
    (check_url monitoring t ts (.response resp e)).content_verified
      = some false ∧
    (check_url monitoring t ts (.response resp e)).error
      = some .searchNotFound ∧
    renderErr .searchNotFound = "Search string not found in response" := by
  have hne : s ≠ "" := by
    intro he
    subst he
    rw [containsStr_empty] at hfind
    cases hfind
  simp only [check_url]
  rw [if_neg (fun hne2 => hne2 hstatus), hs]
  dsimp only
  rw [if_neg hne, hfind]
  exact ⟨rfl, rfl, rfl, rfl⟩

/-- Witness for C6: search string `"Example Domain"` absent from the body
of a fast 200 response. -/
theorem check_url_search_not_found_witness :
    (check_url mon2000 (Target.mk "https://e.example" 200 (some "Example Domain"))
        "T" (.response ⟨200, "nothing here"⟩ 50)).success = false ∧
    (check_url mon2000 (Target.mk "https://e.example" 200 (some "Example Domain"))
        "T" (.response ⟨200, "nothing here"⟩ 50)).content_verified = some false ∧
    (check_url mon2000 (Target.mk "https://e.example" 200 (some "Example Domain"))
        "T" (.response ⟨200, "nothing here"⟩ 50)).error = some .searchNotFound ∧
    renderErr .searchNotFound = "Search string not found in response" :=
  check_url_search_not_found mon2000
    (Target.mk "https://e.example" 200 (some "Example Domain")) "T"
    ⟨200, "nothing here"⟩ 50 "Example Domain" rfl (by decide) rfl (by norm_num [mon2000])

/-- C7: in one invocation of `run_checks`, an alert dispatch is attempted
exactly once for each target whose check result has `success = false` and
never for one with `success = true`: the alerted results are exactly the
failing check results, in configuration order, with no deduplication,
suppression or retry. -/
theorem run_checks_alerts_exactly_failures (config : Config)
    (deliver : EmailMessage → Except String Unit)
    (clock : Target → String) (probe : Target → ProbeOutcome) :
    alertedResults (run_checks config deliver clock probe)
      = (config.urls.map fun t =>
          check_url config.monitoring t (clock t) (probe t)).filter
          (fun r => r.success == false) := by
  obtain ⟨urls, smtp, monitoring⟩ := config
  induction urls with
  | nil => rfl
  | cons t rest ih =>
      by_cases hr : (check_url monitoring t (clock t) (probe t)).success
      · simp only [run_checks, List.flatMap_cons, List.map_cons, List.filter_cons,
          alertedResults, List.filterMap_append] at ih ⊢
        simp [hr] at ih ⊢
        exact ih
      · simp only [run_checks, List.flatMap_cons, List.map_cons, List.filter_cons,
          alertedResults, List.filterMap_append] at ih ⊢
        simp [hr] at ih ⊢
        exact ih

/-- C8: `send_alert` catches every delivery failure and reports it as the
return value `false` (it cannot raise — it is a total function of the
delivery outcome), and `run_checks` completes its pass over every
configured target whatever the delivery outcomes are: the logged check
lines cover the whole configuration. -/
theorem send_alert_never_raises_and_cycle_completes :
    (∀ (smtp : SmtpConfig) (deliver : EmailMessage → Except String Unit)
        (r : CheckResult) (msg : String),
        deliver (buildAlertEmail smtp r) = Except.error msg →
        send_alert smtp deliver r = false) ∧
    (∀ (config : Config) (deliver : EmailMessage → Except String Unit)
        (clock : Target → String) (probe : Target → ProbeOutcome),
        checkedUrls (run_checks config deliver clock probe)
          = config.urls.map Target.url) := by
  constructor
  · intro smtp deliver r msg hd
    unfold send_alert
    rw [hd]
  · intro config deliver clock probe
    obtain ⟨urls, smtp, monitoring⟩ := config
    induction urls with
    | nil => rfl
    | cons t rest ih =>
        by_cases hr : (check_url monitoring t (clock t) (probe t)).success
        · simp only [run_checks, List.flatMap_cons, List.map_cons,
            checkedUrls, List.filterMap_append] at ih ⊢
          simp [hr] at ih ⊢
          exact ih
        · simp only [run_checks, List.flatMap_cons, List.map_cons,
            checkedUrls, List.filterMap_append] at ih ⊢
          simp [hr] at ih ⊢
          exact ih

/-- Witness for C8: with an SMTP relay that rejects authentication, the
alert for a transport-failing target reports `false`, and a two-target
cycle still logs a check for both targets. -/
theorem send_alert_never_raises_witness :
    send_alert smtp0 deliverFail resRefused = false ∧
    checkedUrls (run_checks cfg0 deliverFail clock0 probe0)
      = ["https://a.example", "https://b.example"] := by
  have h := send_alert_never_raises_and_cycle_completes
  refine ⟨h.1 smtp0 deliverFail resRefused "535 authentication failed" rfl, ?_⟩
  rw [h.2 cfg0 deliverFail clock0 probe0]
  rfl

end URLMonitor
